import Mathlib

/-!
Shallow embedding of the streaming event-to-UI reconciliation layer of
`src/chat_ui.py` (repository `azure-maps-sales-agent`), together with the
submission guard of `create_chat_interface.azure_store_chat`.

Modelling conventions:
* Python object references into the transcript list are modelled as indices.
  This is faithful here because the transcript is only ever appended to or
  mutated element-wise in place inside this module (never reordered or
  shortened), so an object reference and the index at which the object was
  appended denote the same entry throughout.
* Python dictionaries (`_message_map`, `current_tool_calls`) are modelled as
  association lists with dict semantics: overwrite-in-place on existing key,
  append on new key, unique keys.
* Python truthiness tests are translated explicitly: a string is truthy iff
  nonempty, a list is truthy iff nonempty, `None` is falsy.
* `print` calls and OpenTelemetry span attributes do not touch the handler
  state; for `on_thread_run` (where a claim is about them) the recorded
  attributes are returned alongside the state, elsewhere they are omitted.
* The handler is modelled in its configured form, as wired up by
  `create_chat_interface`: `conversation` is an attached list (the code's
  `self.conversation is not None` test is therefore always true) and
  `create_tool_bubble_fn` is the `create_tool_bubble` closure over the same
  list.
* JSON parsing is performed in the source by `json.loads`; the parse outcome
  of a tool call's raw output string is carried on the event
  (`parsed = some v` for a successful parse yielding `v`, `none` for a
  `JSONDecodeError`). The formatter itself is translated from the source.
-/

/-- Model of `gradio.ChatMessage.metadata`: a dict whose recognized keys are
`id`, `title` and `status`; a `none` field models an absent key. -/
structure Metadata where
  id : Option String
  title : Option String
  status : Option String
deriving Repr, DecidableEq

/-- Model of `gradio.ChatMessage`. -/
structure ChatMessage where
  role : String
  content : String
  metadata : Option Metadata
deriving Repr, DecidableEq

/-- Model of one `current_tool_calls` value:
`{"name": ..., "arguments": ..., "status": ...}` (`name` may be Python
`None`, hence an `Option`). -/
structure PendingToolCall where
  name : Option String
  arguments : String
  status : String
deriving Repr, DecidableEq

/-- Association-list lookup with Python-dict semantics. -/
def alLookup {α : Type} (l : List (String × α)) (k : String) : Option α :=
  match l with
  | [] => none
  | (k1, v) :: t => if k1 = k then some v else alLookup t k

/-- Association-list insert with Python-dict semantics: overwrite in place if
the key exists, otherwise append. -/
def alInsert {α : Type} (l : List (String × α)) (k : String) (v : α) :
    List (String × α) :=
  match l with
  | [] => [(k, v)]
  | (k1, v1) :: t => if k1 = k then (k, v) :: t else (k1, v1) :: alInsert t k v

/-- Association-list erase (Python `del d[k]`; keys are unique). -/
def alErase {α : Type} (l : List (String × α)) (k : String) :
    List (String × α) :=
  match l with
  | [] => []
  | (k1, v1) :: t => if k1 = k then t else (k1, v1) :: alErase t k

/-- Python `k in d`. -/
def alContains {α : Type} (l : List (String × α)) (k : String) : Bool :=
  (alLookup l k).isSome

/-- Mutation of the `i`-th transcript entry's `content` field in place
(Python `target_msg.content = c` through a reference into the list). -/
def setContent : List ChatMessage → Nat → String → List ChatMessage
  | [], _, _ => []
  | m :: rest, 0, c => { m with content := c } :: rest
  | m :: rest, Nat.succ i, c => m :: setContent rest i c

/-- State of one `EventHandler` (plus the `conversation` list it is attached
to).  `_message_map` holds indices into `conversation` in place of the
Python object references (see the header note). -/
structure HandlerState where
  currentMessageId : Option String
  accumulatedText : String
  conversation : List ChatMessage
  messageMap : List (String × Nat)
  currentToolCalls : List (String × PendingToolCall)
deriving Repr, DecidableEq

/-- Concatenation of the text fragments of a delta's (or a completed
message's) content parts: a part without a text payload contributes
nothing. -/
def joinParts (parts : List (Option String)) : String :=
  parts.foldl (fun acc c => acc ++ c.getD "") ""

/-- Model of `EventHandler.on_message_delta` (src/chat_ui.py lines 40-63): if the
delta's id differs from `_current_message_id`, reset the accumulator and
append a fresh empty assistant entry, registering it in `_message_map`;
then append the delta's text fragments to the accumulator and write the
accumulated text into the mapped entry. -/
def on_message_delta (s : HandlerState) (id : String)
    (chunks : List (Option String)) : HandlerState :=
  let s1 :=
    if some id = s.currentMessageId then s
    else
      { s with
        currentMessageId := some id
        accumulatedText := ""
        conversation :=
          s.conversation ++ [{ role := "assistant", content := "", metadata := none }]
        messageMap := alInsert s.messageMap id s.conversation.length }
  let fragText := joinParts chunks
  if fragText = "" then s1
  else
    let s2 := { s1 with accumulatedText := s1.accumulatedText ++ fragText }
    if s2.conversation = [] then s2
    else
      match alLookup s2.messageMap id with
      | some i => { s2 with conversation := setContent s2.conversation i s2.accumulatedText }
      | none => s2

/-- Model of `EventHandler.on_thread_message` (src/chat_ui.py lines 65-81): on a
completed assistant message, rebuild the final text from the message's
content parts; if `_message_map` knows the id, overwrite the mapped entry's
content, else (when the final text and the transcript are nonempty) append
a new assistant entry.  Note the source records no `_message_map`
association for an entry appended on this path. -/
def on_thread_message (s : HandlerState) (id : String) (role status : String)
    (parts : List (Option String)) : HandlerState :=
  if role = "assistant" ∧ status = "completed" then
    let finalContent := joinParts parts
    if s.conversation = [] then s
    else
      match alLookup s.messageMap id with
      | some i => { s with conversation := setContent s.conversation i finalContent }
      | none =>
        if finalContent = "" then s
        else
          { s with
            conversation :=
              s.conversation ++ [{ role := "assistant", content := finalContent, metadata := none }] }
  else s

/-- The `run.last_error` payload of a `ThreadRun` event. -/
structure RunLastError where
  code : String
  message : String
deriving Repr, DecidableEq

/-- A `ThreadRun` (run-status) event as consumed by `on_thread_run`. -/
structure ThreadRunEvt where
  id : String
  status : String
  lastError : Option RunLastError
deriving Repr, DecidableEq

/-- Model of `EventHandler.on_thread_run` (src/chat_ui.py lines 83-110).  The handler
state is returned unchanged (the body only prints and records span
attributes); the attribute list that would be set on a recording span of an
attached tracer is returned alongside.  `hasTracer` models `self.tracer`
being non-`None`, `recording` models `span and hasattr(span, "is_recording")
and span.is_recording()`. -/
def on_thread_run (s : HandlerState) (hasTracer recording : Bool)
    (run : ThreadRunEvt) : HandlerState × List (String × String) :=
  (s,
    if hasTracer ∧ recording then
      [("run_id", run.id), ("run_status", run.status)] ++
        (match run.lastError with
          | some e => if run.status = "failed" then [("error_code", e.code), ("error", e.message)] else []
          | none => [])
    else [])

/-- The `tool_titles` mapping of `create_chat_interface` with its `.get(tool_name,
f"🛠️ {tool_name}")` default. -/
def toolTitles (name : String) : String :=
  if name = "bing_grounding" then "🔎 Searching Web Sources"
  else if name = "generate_location_map" then "🗺️ Generating Map"
  else if name = "get_clients_for_today" then "📅 Today's Clients"
  else "🛠️ " ++ name

/-- The `tool_icons_status` mapping with its `.get(status, "")` default. -/
def statusIcon (status : String) : String :=
  if status = "pending" then "⏳"
  else if status = "done" then "✅"
  else if status = "error" then "❌"
  else ""

/-- Model of `f"tool-" + call_id if call_id else "tool-noid"` (a Python-`None` or empty
id is falsy). -/
def bubbleIdOf (callId : Option String) : String :=
  match callId with
  | some c => if c = "" then "tool-noid" else "tool-" ++ c
  | none => "tool-noid"

/-- Model of `msg.metadata and msg.metadata.get("id") == bubble_id`. -/
def hasBubbleId (m : ChatMessage) (bid : String) : Bool :=
  match m.metadata with
  | some md => md.id = some bid
  | none => false

/-- Backward search of `create_tool_bubble`: find the most recent transcript
entry whose metadata id equals `bid` and overwrite its title, status and
content in place; `none` when no entry matches. -/
def updateBubbleFromEnd (bid title content status : String) :
    List ChatMessage → Option (List ChatMessage)
  | [] => none
  | m :: rest =>
    match updateBubbleFromEnd bid title content status rest with
    | some rest1 => some (m :: rest1)
    | none =>
      match m.metadata with
      | some md =>
        if md.id = some bid then
          some ({ m with
                  content := content
                  metadata := some { md with title := some title, status := some status } } :: rest)
        else none
      | none => none

/-- Model of `create_tool_bubble` of `create_chat_interface` (src/chat_ui.py lines
284-313): no-op for a `None` tool name; otherwise upsert a bubble entry
keyed by `metadata.id`, most recent entry authoritative, appending a new
entry when none matches. -/
def create_tool_bubble (conv : List ChatMessage) (toolName : Option String)
    (content : String) (callId : Option String) (status : String) :
    List ChatMessage :=
  match toolName with
  | none => conv
  | some name =>
    let title := statusIcon status ++ " " ++ toolTitles name
    let bid := bubbleIdOf callId
    match updateBubbleFromEnd bid title content status conv with
    | some conv1 => conv1
    | none =>
      conv ++ [{ role := "assistant", content := content,
                 metadata := some { id := some bid, title := some title, status := some status } }]

/-- The `function` payload of one streamed tool-call delta. -/
structure FunctionDelta where
  name : Option String
  arguments : Option String
deriving Repr, DecidableEq

/-- One element of `step_details.tool_calls` in a `RunStepDeltaChunk`. -/
structure ToolCallDelta where
  id : Option String
  type : String
  function : Option FunctionDelta
deriving Repr, DecidableEq

/-- Appends `args` to the `arguments` buffer of the record at key `k`
(Python `self.current_tool_calls[call_id]["arguments"] += ...`; the key is
always present at that program point). -/
def alAppendArgs (l : List (String × PendingToolCall)) (k : String)
    (args : String) : List (String × PendingToolCall) :=
  match l with
  | [] => []
  | (k1, v) :: t =>
    if k1 = k then (k1, { v with arguments := v.arguments ++ args }) :: t
    else (k1, v) :: alAppendArgs t k args

/-- Body of the `for tcall_delta in step_delta.tool_calls` loop of
`EventHandler.on_run_step_delta` (src/chat_ui.py lines 115-128). -/
def processToolCallDelta (s : HandlerState) (tc : ToolCallDelta) : HandlerState :=
  match tc.id with
  | none => s
  | some cid =>
    if cid = "" then s
    else if tc.type = "function" then
      match tc.function with
      | none => s
      | some fd =>
        let s1 :=
          if alContains s.currentToolCalls cid then s
          else
            { s with
              currentToolCalls :=
                alInsert s.currentToolCalls cid { name := fd.name, arguments := "", status := "starting" }
              conversation := create_tool_bubble s.conversation fd.name "..." (some cid) "pending" }
        if (fd.arguments.getD "") = "" then s1
        else { s1 with currentToolCalls := alAppendArgs s1.currentToolCalls cid (fd.arguments.getD "") }
    else s

/-- A `RunStepDeltaChunk` event: `detailsType = none` models a falsy
`delta.delta.step_details`; `delta.delta.step_details.tool_calls or []` is
the `toolCalls` list. -/
structure RunStepDeltaEvt where
  detailsType : Option String
  toolCalls : List ToolCallDelta
deriving Repr, DecidableEq

/-- Model of `EventHandler.on_run_step_delta` (src/chat_ui.py lines 112-128). -/
def on_run_step_delta (s : HandlerState) (e : RunStepDeltaEvt) : HandlerState :=
  if e.detailsType = some "tool_calls" then e.toolCalls.foldl processToolCallDelta s
  else s

/-- Parsed JSON value, the result of `json.loads` on a tool call's output.
`str()`-rendering of nested containers is not reproduced (no formatter
branch in this development renders a container), and a `KeyError` on a
missing sub-key of a matched kind-specific branch is not modelled (`getKey`
totalizes it with `jnull`). -/
inductive JVal where
  | jstr (s : String)
  | jnum (n : Int)
  | jbool (b : Bool)
  | jnull
  | jarr (elems : List JVal)
  | jobj (fields : List (String × JVal))

/-- Python `key in output` for a parsed dict (`false` on non-dicts, whose
membership/`TypeError` behavior is never exercised here). -/
def JVal.hasKey : JVal → String → Bool
  | .jobj fields, k => (alLookup fields k).isSome
  | _, _ => false

/-- Lookup `output[k]` on a parsed dict, totalized with `jnull`. -/
def JVal.getKey : JVal → String → JVal
  | .jobj fields, k => (alLookup fields k).getD .jnull
  | _, _ => .jnull

/-- Interpolation of a parsed JSON leaf into an f-string
(Python `str()`). -/
def JVal.render : JVal → String
  | .jstr s => s
  | .jnum n => toString n
  | .jbool b => if b then "True" else "False"
  | .jnull => "None"
  | .jarr _ => "<list>"
  | .jobj _ => "<dict>"

/-- Numeric reading of `output["count"]` (Python compares it with `0`;
a Python `bool` is an `int`). -/
def JVal.asInt : JVal → Int
  | .jnum n => n
  | .jbool b => if b then 1 else 0
  | _ => 0

/-- Reading of `output["low_stock_items"]` as a list. -/
def JVal.asArr : JVal → List JVal
  | .jarr elems => elems
  | _ => []

/-- Python f-string interpolation of an optional string (`str(None)` is
`"None"`). -/
def optStr (o : Option String) : String :=
  match o with
  | some x => x
  | none => "None"

/-- Python string slicing `s[:n]` (by code points). -/
def pySlice (s : String) (n : Nat) : String := String.mk (s.data.take n)

/-- The `message` computed from a successfully parsed tool output
(src/chat_ui.py lines 150-173): pre-built display field, generic `message`,
`error`, the three kind-specific templates, then the raw-string fallback
`f"Completed. Output: {output_str[:1000]}{'...' if len(output_str) > 100 else ''}"`. -/
def formatParsedOutput (funcName : Option String) (outputStr : String)
    (v : JVal) : String :=
  if funcName = some "get_shelf_layout" ∧ v.hasKey "layout_visual" then
    (v.getKey "layout_visual").render
  else if v.hasKey "message" then (v.getKey "message").render
  else if v.hasKey "error" then "Error: " ++ (v.getKey "error").render
  else if funcName = some "check_item_stock" ∧ v.hasKey "stock" then
    (v.getKey "name").render ++ " (ID: " ++ (v.getKey "item_id").render ++ "): "
      ++ (v.getKey "stock").render ++ " units in stock."
  else if funcName = some "find_item_location" ∧ v.hasKey "location_id" then
    (v.getKey "name").render ++ " (ID: " ++ (v.getKey "item_id").render
      ++ ") is located at Shelf " ++ (v.getKey "location_id").render
      ++ ", Position " ++ (v.getKey "position").render ++ "."
  else if funcName = some "get_items_needing_restock" ∧ v.hasKey "count" then
    let count := (v.getKey "count").asInt
    if count > 0 then
      let itemsStr :=
        String.intercalate ", "
          (((v.getKey "low_stock_items").asArr.take 3).map
            (fun i => (i.getKey "name").render ++ " (" ++ (i.getKey "current_stock").render ++ ")"))
      "Found " ++ toString count ++ " low stock items. Examples: " ++ itemsStr
        ++ (if count > 3 then "..." else "") ++ "."
    else "No items found needing restock."
  else
    "Completed. Output: " ++ pySlice outputStr 1000
      ++ (if outputStr.length > 100 then "..." else "")

/-- One element of `step.step_details.tool_calls` in a terminal `RunStep`
event.  `output = none` or `some ""` models a falsy `tcall.function.output`;
`parsed` carries the `json.loads` outcome for the output string (see the
header note). -/
structure StepToolCall where
  id : Option String
  type : String
  output : Option String
  parsed : Option JVal

/-- The bubble content for one completed tool call (src/chat_ui.py lines
146-184). -/
def completedMessage (funcName : Option String) (tc : StepToolCall) : String :=
  if tc.type = "function" ∧ (tc.output.getD "") ≠ "" then
    match tc.parsed with
    | some v => formatParsedOutput funcName (tc.output.getD "") v
    | none =>
      "Completed. Output (non-JSON): " ++ pySlice (tc.output.getD "") 1000
        ++ (if (tc.output.getD "").length > 100 then "..." else "")
  else if tc.type = "bing_grounding" then "Finished searching web sources."
  else "Tool call finished."

/-- The bubble content for one failed tool call (src/chat_ui.py lines
190-192). -/
def failedMessage (funcName : Option String) (callId : Option String)
    (lastError : Option String) : String :=
  "Tool call failed: " ++ optStr funcName ++ " (ID: " ++ optStr callId ++ ")"
    ++ (match lastError with
        | some e => " - Error: " ++ e
        | none => "")

/-- Model of `tool_info = self.current_tool_calls.get(call_id)` followed by
`func_name = tool_info["name"] if tool_info else "unknown_function"`
(src/chat_ui.py lines 140-141). -/
def resolvedFuncName (s : HandlerState) (tc : StepToolCall) : Option String :=
  match tc.id.bind (alLookup s.currentToolCalls) with
  | some ti => ti.name
  | none => some "unknown_function"

/-- Body of the `for tcall in step.step_details.tool_calls` loop of
`EventHandler.on_run_step` (src/chat_ui.py lines 138-200): resolve the
tracked record (falling back to `"unknown_function"`), on `completed` or
`failed` upsert the bubble, then — for any step status — drop the tracking
record if present. -/
def processStepToolCall (status : String) (lastError : Option String)
    (s : HandlerState) (tc : StepToolCall) : HandlerState :=
  let funcName := resolvedFuncName s tc
  let s1 :=
    if status = "completed" then
      { s with conversation := create_tool_bubble s.conversation funcName (completedMessage funcName tc) tc.id "done" }
    else if status = "failed" then
      { s with conversation := create_tool_bubble s.conversation funcName (failedMessage funcName tc.id lastError) tc.id "error" }
    else s
  match tc.id with
  | some cid => { s1 with currentToolCalls := alErase s1.currentToolCalls cid }
  | none => s1

/-- A terminal/lifecycle `RunStep` event.  An empty `toolCalls` list models a
falsy `step.step_details` or `step.step_details.tool_calls`. -/
structure RunStepEvt where
  status : String
  type : String
  toolCalls : List StepToolCall
  lastErrorMessage : Option String

/-- Model of `EventHandler.on_run_step` (src/chat_ui.py lines 130-200). -/
def on_run_step (s : HandlerState) (step : RunStepEvt) : HandlerState :=
  if step.type = "tool_calls" then
    match step.toolCalls with
    | [] => s
    | tc :: rest => (tc :: rest).foldl (processStepToolCall step.status step.lastErrorMessage) s
  else s

/-- Outcome of the submission guard of `azure_store_chat` (src/chat_ui.py
lines 231-254): the updated `last_message_sent_time` and
`conversation_state`, whether the submission was accepted (only accepted
submissions reach `project_client.agents.create_message` and the streaming
run), and the first transcript snapshot yielded to the caller. -/
structure GuardResult where
  lastTime : ℚ
  conversationState : List ChatMessage
  accepted : Bool
  yielded : List ChatMessage
deriving Repr, DecidableEq

/-- Python `str.strip()` with no argument: drop leading and trailing
whitespace characters. -/
def pyStrip (s : String) : String :=
  String.mk (((s.data.dropWhile Char.isWhitespace).reverse.dropWhile Char.isWhitespace).reverse)

/-- The guard phase of `azure_store_chat` (src/chat_ui.py lines 231-254):
reject (yielding `history` unchanged) a submission within 2 seconds of the
previous accepted one, then reject an input that is empty after trimming
(`not user_message.strip()`); otherwise stamp the time, adopt `history` as
the conversation state when it is nonempty, and append the user entry.
`time.time()` values are modelled as rationals; the dict↔ChatMessage
conversions are identities on this model. -/
def azure_store_chat_guard (lastTime : ℚ) (conversationState : List ChatMessage)
    (now : ℚ) (userMessage : String) (history : List ChatMessage) : GuardResult :=
  if now - lastTime < 2 then
    { lastTime := lastTime, conversationState := conversationState,
      accepted := false, yielded := history }
  else if pyStrip userMessage = "" then
    { lastTime := lastTime, conversationState := conversationState,
      accepted := false, yielded := history }
  else
    let conv :=
      (if history = [] then conversationState else history)
        ++ [{ role := "user", content := userMessage, metadata := none }]
    { lastTime := now, conversationState := conv, accepted := true, yielded := conv }

/-- The metadata ids present in a transcript, in order (entries without a
metadata id contribute nothing).  "At most one entry per distinct
`metadata.id`" is `(idsOf conv).Nodup`. -/
def idsOf (conv : List ChatMessage) : List String :=
  conv.filterMap (fun m => m.metadata.bind Metadata.id)

/-- A freshly constructed handler attached to an empty transcript. -/
def emptyHandler : HandlerState :=
  { currentMessageId := none, accumulatedText := "", conversation := [],
    messageMap := [], currentToolCalls := [] }

/-- A sequence of `on_message_delta` events sharing one message id. -/
def applyTextDeltas (m : String) (s : HandlerState)
    (frags : List (List (Option String))) : HandlerState :=
  frags.foldl (fun st ch => on_message_delta st m ch) s

/-- The scenario of property 1 of the spec: text deltas for one message id
followed by the completion event for that id. -/
def applyTextDeltasThenCompletion (s : HandlerState) (m : String)
    (frags : List (List (Option String))) (parts : List (Option String)) :
    HandlerState :=
  on_thread_message (applyTextDeltas m s frags) m "assistant" "completed" parts

/-- A tool-call start delta: first introduction of `c`, carrying the
function name `n` (and possibly a first argument fragment). -/
def toolStartEvt (c : String) (n : Option String) (arg0 : Option String) :
    RunStepDeltaEvt :=
  { detailsType := some "tool_calls",
    toolCalls := [{ id := some c, type := "function", function := some { name := n, arguments := arg0 } }] }

/-- An argument-fragment delta for the already-tracked call `c`. -/
def toolFragEvt (c : String) (fd : FunctionDelta) : RunStepDeltaEvt :=
  { detailsType := some "tool_calls",
    toolCalls := [{ id := some c, type := "function", function := some fd }] }

/-- A sequence of argument-fragment deltas for the call `c`. -/
def applyToolFrags (c : String) (s : HandlerState) (frags : List FunctionDelta) :
    HandlerState :=
  frags.foldl (fun st fd => on_run_step_delta st (toolFragEvt c fd)) s

/-- A completion run-step event whose details list exactly the tool call
`tc`. -/
def completedStepEvt (tc : StepToolCall) : RunStepEvt :=
  { status := "completed", type := "tool_calls", toolCalls := [tc], lastErrorMessage := none }

/-- Invariant tying a handler to the in-flight text message `m`: the
transcript is the base transcript extended by one assistant entry whose
content is the accumulated text, the handler is current on `m`, and
`_message_map` sends `m` to that entry. -/
def MsgTracks (base : List ChatMessage) (s : HandlerState) (m : String) : Prop :=
  s.currentMessageId = some m
  ∧ s.conversation = base ++ [{ role := "assistant", content := s.accumulatedText, metadata := none }]
  ∧ alLookup s.messageMap m = some base.length

/-- Invariant tying a handler to the in-flight tool call `c` started with
function name `n`: the transcript is the base transcript extended by the
pending bubble for `c`, and the tracking record for `c` carries `n`. -/
def ToolTracks (base : List ChatMessage) (s : HandlerState) (c : String) (n : String) : Prop :=
  (∃ content,
      s.conversation = base ++
        [{ role := "assistant", content := content,
           metadata := some { id := some (bubbleIdOf (some c)),
                              title := some (statusIcon "pending" ++ " " ++ toolTitles n),
                              status := some "pending" } }])
  ∧ (∃ args, alLookup s.currentToolCalls c = some { name := some n, arguments := args, status := "starting" })

/-- A 150-character raw tool output exercising the truncation fallback of
the response formatter. -/
def rawOutput150 : String := String.mk (List.replicate 150 'a')

/-! Section: Association-list lemmas -/

theorem alLookup_insert_self {α : Type} (l : List (String × α)) (k : String) (v : α) :
    alLookup (alInsert l k v) k = some v := by
  induction l with
  | nil => simp [alInsert, alLookup]
  | cons hd t ih =>
    obtain ⟨k1, v1⟩ := hd
    by_cases h : k1 = k
    · simp [alInsert, alLookup, h]
    · simp [alInsert, alLookup, h, ih]

theorem alLookup_appendArgs_self (l : List (String × PendingToolCall)) (k : String)
    (a : String) (v : PendingToolCall) (h : alLookup l k = some v) :
    alLookup (alAppendArgs l k a) k = some { v with arguments := v.arguments ++ a } := by
  induction l with
  | nil => simp [alLookup] at h
  | cons hd t ih =>
    obtain ⟨k1, v1⟩ := hd
    by_cases hk : k1 = k
    · simp [alLookup, hk] at h
      simp [alAppendArgs, alLookup, hk, h]
    · simp [alLookup, hk] at h
      simp [alAppendArgs, alLookup, hk, ih h]

theorem alLookup_eq_none_of_not_mem {α : Type} (l : List (String × α)) (k : String)
    (h : k ∉ l.map Prod.fst) : alLookup l k = none := by
  induction l with
  | nil => simp [alLookup]
  | cons hd t ih =>
    obtain ⟨k1, v1⟩ := hd
    have h1 : ¬ k1 = k := fun he => h (by simp [he])
    have h2 : k ∉ t.map Prod.fst := fun hm => h (by simp; right; simpa using hm)
    simp [alLookup, h1, ih h2]

theorem alContains_erase_self {α : Type} (l : List (String × α)) (k : String)
    (h : (l.map Prod.fst).Nodup) : alContains (alErase l k) k = false := by
  induction l with
  | nil => simp [alErase, alContains, alLookup]
  | cons hd t ih =>
    obtain ⟨k1, v1⟩ := hd
    rw [List.map_cons] at h
    have h2 := List.nodup_cons.mp h
    by_cases hk : k1 = k
    · subst hk
      have hn : alLookup t k1 = none := alLookup_eq_none_of_not_mem t k1 h2.1
      simp [alErase, alContains, hn]
    · have := ih h2.2
      simpa [alErase, hk, alContains, alLookup] using this

/-! Section: `setContent` lemmas -/

theorem setContent_length (l : List ChatMessage) (i : Nat) (c : String) :
    (setContent l i c).length = l.length := by
  induction l generalizing i with
  | nil => simp [setContent]
  | cons m rest ih =>
    cases i with
    | zero => simp [setContent]
    | succ j => simp [setContent, ih]

theorem setContent_getElem?_self (l : List ChatMessage) (i : Nat) (c : String) :
    (setContent l i c)[i]? = (l[i]?).map (fun m => { m with content := c }) := by
  induction l generalizing i with
  | nil => simp [setContent]
  | cons m rest ih =>
    cases i with
    | zero => simp [setContent]
    | succ j => simpa [setContent] using ih j

theorem setContent_getElem?_ne (l : List ChatMessage) (i : Nat) (c : String)
    (j : Nat) (h : j ≠ i) : (setContent l i c)[j]? = l[j]? := by
  induction l generalizing i j with
  | nil => simp [setContent]
  | cons m rest ih =>
    cases i with
    | zero =>
      cases j with
      | zero => exact absurd rfl h
      | succ j1 => simp [setContent]
    | succ i1 =>
      cases j with
      | zero => simp [setContent]
      | succ j1 => simpa [setContent] using ih i1 j1 (fun he => h (by rw [he]))

theorem setContent_concat (xs : List ChatMessage) (m : ChatMessage) (c : String) :
    setContent (xs ++ [m]) xs.length c = xs ++ [{ m with content := c }] := by
  induction xs with
  | nil => simp [setContent]
  | cons x t ih => simpa [setContent] using ih

/-! Section: Tool-bubble lemmas -/

theorem hasBubbleId_iff (m : ChatMessage) (bid : String) :
    hasBubbleId m bid = true ↔ m.metadata.bind Metadata.id = some bid := by
  cases hm : m.metadata with
  | none => simp [hasBubbleId, hm]
  | some md => simp [hasBubbleId, hm]

theorem updateBubbleFromEnd_eq_none (bid title content status : String)
    (conv : List ChatMessage) (h : ∀ m ∈ conv, hasBubbleId m bid = false) :
    updateBubbleFromEnd bid title content status conv = none := by
  induction conv with
  | nil => simp [updateBubbleFromEnd]
  | cons m rest ih =>
    have hrest := ih (fun x hx => h x (List.mem_cons_of_mem m hx))
    have hm := h m (List.mem_cons_self m rest)
    rw [updateBubbleFromEnd, hrest]
    cases hmd : m.metadata with
    | none => rfl
    | some md =>
      have : ¬ md.id = some bid := by
        intro he
        rw [hasBubbleId, hmd] at hm
        simp [he] at hm
      simp [this]

theorem updateBubbleFromEnd_concat (bid title content status : String)
    (xs : List ChatMessage) (b : ChatMessage) (md : Metadata)
    (hmd : b.metadata = some md) (hid : md.id = some bid) :
    updateBubbleFromEnd bid title content status (xs ++ [b])
      = some (xs ++
          [{ b with
             content := content,
             metadata := some { md with title := some title, status := some status } }]) := by
  induction xs with
  | nil => simp [updateBubbleFromEnd, hmd, hid]
  | cons x t ih => simp [updateBubbleFromEnd, ih]

theorem create_tool_bubble_append (conv : List ChatMessage) (name content : String)
    (callId : Option String) (status : String)
    (h : ∀ m ∈ conv, hasBubbleId m (bubbleIdOf callId) = false) :
    create_tool_bubble conv (some name) content callId status
      = conv ++ [{ role := "assistant", content := content,
                   metadata := some { id := some (bubbleIdOf callId),
                                      title := some (statusIcon status ++ " " ++ toolTitles name),
                                      status := some status } }] := by
  rw [create_tool_bubble]
  rw [updateBubbleFromEnd_eq_none _ _ _ _ _ h]

theorem create_tool_bubble_concat (base : List ChatMessage) (b : ChatMessage)
    (md : Metadata) (name content : String) (callId : Option String) (status : String)
    (hmd : b.metadata = some md) (hid : md.id = some (bubbleIdOf callId)) :
    create_tool_bubble (base ++ [b]) (some name) content callId status
      = base ++
          [{ b with
             content := content,
             metadata := some { md with
                                title := some (statusIcon status ++ " " ++ toolTitles name),
                                status := some status } }] := by
  rw [create_tool_bubble]
  rw [updateBubbleFromEnd_concat _ _ _ _ _ _ _ hmd hid]

/-! Section: `idsOf` lemmas -/

theorem idsOf_append (a b : List ChatMessage) : idsOf (a ++ b) = idsOf a ++ idsOf b := by
  simp [idsOf]

theorem mem_idsOf_iff (bid : String) (conv : List ChatMessage) :
    bid ∈ idsOf conv ↔ ∃ m ∈ conv, hasBubbleId m bid = true := by
  simp only [idsOf, List.mem_filterMap]
  constructor
  · rintro ⟨m, hm, he⟩
    exact ⟨m, hm, (hasBubbleId_iff m bid).mpr he⟩
  · rintro ⟨m, hm, he⟩
    exact ⟨m, hm, (hasBubbleId_iff m bid).mp he⟩

theorem nodup_idsOf_concat (base : List ChatMessage) (b : ChatMessage) (md : Metadata)
    (bid : String) (hmd : b.metadata = some md) (hid : md.id = some bid)
    (hnodup : (idsOf base).Nodup)
    (hfresh : ∀ m ∈ base, hasBubbleId m bid = false) :
    (idsOf (base ++ [b])).Nodup := by
  rw [idsOf_append]
  have hb : idsOf [b] = [bid] := by simp [idsOf, hmd, hid]
  rw [hb]
  have hnotmem : bid ∉ idsOf base := by
    rw [mem_idsOf_iff]
    rintro ⟨m, hm, he⟩
    rw [hfresh m hm] at he
    exact Bool.false_ne_true he
  simp [List.nodup_append, hnodup, hnotmem]

/-! Section: Message-path invariant lemmas -/

theorem string_append_empty (s : String) : s ++ "" = s := by
  simp

theorem msgTracks_delta_fresh (s : HandlerState) (m : String)
    (ch : List (Option String)) (h : s.currentMessageId ≠ some m) :
    MsgTracks s.conversation (on_message_delta s m ch) m := by
  rw [on_message_delta]
  have hne : ¬ some m = s.currentMessageId := fun he => h he.symm
  rw [if_neg hne]
  by_cases hp : joinParts ch = ""
  · rw [if_pos hp]
    exact ⟨rfl, rfl, alLookup_insert_self s.messageMap m s.conversation.length⟩
  · rw [if_neg hp]
    have hk : alLookup (alInsert s.messageMap m s.conversation.length) m
        = some s.conversation.length := alLookup_insert_self _ _ _
    have hnonnil :
        (s.conversation ++ [{ role := "assistant", content := "", metadata := none }]) ≠ [] := by
      simp
    simp only [if_neg hnonnil, hk]
    refine ⟨rfl, ?_, hk⟩
    have : ("" : String) ++ joinParts ch = joinParts ch := rfl
    simp only [this]
    exact setContent_concat s.conversation _ _

theorem msgTracks_delta_keep (base : List ChatMessage) (s : HandlerState) (m : String)
    (ch : List (Option String)) (h : MsgTracks base s m) :
    MsgTracks base (on_message_delta s m ch) m := by
  obtain ⟨hcur, hconv, hmap⟩ := h
  rw [on_message_delta]
  have heq : some m = s.currentMessageId := hcur.symm
  rw [if_pos heq]
  by_cases hp : joinParts ch = ""
  · rw [if_pos hp]
    exact ⟨hcur, hconv, hmap⟩
  · rw [if_neg hp]
    have hnonnil : s.conversation ≠ [] := by
      rw [hconv]; simp
    simp only [if_neg hnonnil, hmap]
    refine ⟨hcur, ?_, hmap⟩
    rw [hconv]
    exact setContent_concat base _ _

theorem msgTracks_fold (base : List ChatMessage) (s : HandlerState) (m : String)
    (frags : List (List (Option String))) (h : MsgTracks base s m) :
    MsgTracks base (applyTextDeltas m s frags) m := by
  induction frags generalizing s with
  | nil => exact h
  | cons f t ih => exact ih _ (msgTracks_delta_keep base s m f h)

theorem msgTracks_complete (base : List ChatMessage) (s : HandlerState) (m : String)
    (parts : List (Option String)) (h : MsgTracks base s m) :
    (on_thread_message s m "assistant" "completed" parts).conversation
      = base ++ [{ role := "assistant", content := joinParts parts, metadata := none }]
    ∧ (on_thread_message s m "assistant" "completed" parts).messageMap = s.messageMap := by
  obtain ⟨hcur, hconv, hmap⟩ := h
  rw [on_thread_message]
  have hnonnil : s.conversation ≠ [] := by
    rw [hconv]; simp
  simp only [if_pos (And.intro rfl rfl), if_neg hnonnil, hmap]
  constructor
  · rw [hconv]
    exact setContent_concat base _ _
  · rfl


/-! Section: Tool-path invariant lemmas -/

theorem on_run_step_delta_single (s : HandlerState) (tc : ToolCallDelta) :
    on_run_step_delta s { detailsType := some "tool_calls", toolCalls := [tc] }
      = processToolCallDelta s tc := by
  rw [on_run_step_delta]
  simp

theorem toolTracks_start (s : HandlerState) (c n : String) (arg0 : Option String)
    (hc : c ≠ "") (hnt : alContains s.currentToolCalls c = false)
    (hnb : ∀ m ∈ s.conversation, hasBubbleId m (bubbleIdOf (some c)) = false) :
    ToolTracks s.conversation (on_run_step_delta s (toolStartEvt c (some n) arg0)) c n := by
  have hbub := create_tool_bubble_append s.conversation n "..." (some c) "pending" hnb
  have hins := alLookup_insert_self s.currentToolCalls c
    { name := some n, arguments := "", status := "starting" : PendingToolCall }
  rw [toolStartEvt, on_run_step_delta_single]
  simp only [processToolCallDelta, if_neg hc, hnt, Bool.false_eq_true, if_false, ite_false,
    if_pos (rfl : ("function" : String) = "function")]
  by_cases ha : (arg0.getD "") = ""
  · rw [if_pos ha]
    exact ⟨⟨"...", hbub⟩, ⟨"", hins⟩⟩
  · rw [if_neg ha]
    exact ⟨⟨"...", hbub⟩, ⟨"" ++ arg0.getD "", alLookup_appendArgs_self _ c _ _ hins⟩⟩

theorem toolTracks_frag (base : List ChatMessage) (s : HandlerState) (c n : String)
    (fd : FunctionDelta) (h : ToolTracks base s c n) :
    ToolTracks base (on_run_step_delta s (toolFragEvt c fd)) c n := by
  obtain ⟨⟨content0, hconv⟩, ⟨args0, hargs⟩⟩ := h
  rw [toolFragEvt, on_run_step_delta_single]
  by_cases hc : c = ""
  · simp only [processToolCallDelta, if_pos hc]
    exact ⟨⟨content0, hconv⟩, ⟨args0, hargs⟩⟩
  · have hcont : alContains s.currentToolCalls c = true := by
      rw [alContains, hargs]; rfl
    simp only [processToolCallDelta, if_neg hc, hcont, if_true, ite_true,
      if_pos (rfl : ("function" : String) = "function")]
    by_cases ha : (fd.arguments.getD "") = ""
    · rw [if_pos ha]
      exact ⟨⟨content0, hconv⟩, ⟨args0, hargs⟩⟩
    · rw [if_neg ha]
      exact ⟨⟨content0, hconv⟩,
        ⟨args0 ++ fd.arguments.getD "", alLookup_appendArgs_self _ c _ _ hargs⟩⟩

theorem toolTracks_fold (base : List ChatMessage) (s : HandlerState) (c n : String)
    (frags : List FunctionDelta) (h : ToolTracks base s c n) :
    ToolTracks base (applyToolFrags c s frags) c n := by
  induction frags generalizing s with
  | nil => exact h
  | cons f t ih => exact ih _ (toolTracks_frag base s c n f h)

theorem toolTracks_complete (base : List ChatMessage) (s : HandlerState) (c n : String)
    (tc : StepToolCall) (h : ToolTracks base s c n) (htc : tc.id = some c) :
    (on_run_step s (completedStepEvt tc)).conversation
      = base ++
          [{ role := "assistant",
             content := completedMessage (some n) tc,
             metadata := some { id := some (bubbleIdOf (some c)),
                                title := some (statusIcon "done" ++ " " ++ toolTitles n),
                                status := some "done" } }] := by
  obtain ⟨⟨content0, hconv⟩, ⟨args0, hargs⟩⟩ := h
  have hupd := create_tool_bubble_concat base
    { role := "assistant", content := content0,
      metadata := some { id := some (bubbleIdOf (some c)),
                         title := some (statusIcon "pending" ++ " " ++ toolTitles n),
                         status := some "pending" } }
    { id := some (bubbleIdOf (some c)),
      title := some (statusIcon "pending" ++ " " ++ toolTitles n),
      status := some "pending" }
    n (completedMessage (some n) tc) (some c) "done" rfl rfl
  show (processStepToolCall "completed" none s tc).conversation = _
  simp only [processStepToolCall, resolvedFuncName, htc, Option.some_bind, hargs, if_true,
    ite_true]
  rw [hconv, hupd]

/-! Section: claim theorems -/

/-- C1: for every N ≥ 1, applying N message text-delta events carrying one
message id, followed by the message-completed event for that id, yields
exactly one new transcript entry for that id — the transcript is the old one
extended by a single assistant entry — whose final content equals the
completion event's final text, with `_message_map` sending the id to that
entry, regardless of N. -/
theorem c1_idempotent_upsert (s : HandlerState) (m : String)
    (f0 : List (Option String)) (rest : List (List (Option String)))
    (parts : List (Option String)) (hfresh : s.currentMessageId ≠ some m) :
    (applyTextDeltasThenCompletion s m (f0 :: rest) parts).conversation
      = s.conversation ++ [{ role := "assistant", content := joinParts parts, metadata := none }]
    ∧ alLookup (applyTextDeltasThenCompletion s m (f0 :: rest) parts).messageMap m
      = some s.conversation.length := by
  have h1 := msgTracks_delta_fresh s m f0 hfresh
  have h2 := msgTracks_fold s.conversation (on_message_delta s m f0) m rest h1
  have hfold : applyTextDeltas m s (f0 :: rest)
      = applyTextDeltas m (on_message_delta s m f0) rest := rfl
  have h3 := msgTracks_complete s.conversation
    (applyTextDeltas m (on_message_delta s m f0) rest) m parts h2
  constructor
  · rw [applyTextDeltasThenCompletion, hfold]
    exact h3.1
  · rw [applyTextDeltasThenCompletion, hfold, h3.2]
    exact h2.2.2

/-- C1 witness: two deltas and one completion on a fresh handler. -/
theorem c1_idempotent_upsert_witness :
    (applyTextDeltasThenCompletion emptyHandler "m1" [[some "Hel"], [some "lo"]] [some "Hello!"]).conversation
      = emptyHandler.conversation ++ [{ role := "assistant", content := joinParts [some "Hello!"], metadata := none }]
    ∧ alLookup (applyTextDeltasThenCompletion emptyHandler "m1" [[some "Hel"], [some "lo"]] [some "Hello!"]).messageMap "m1"
      = some emptyHandler.conversation.length :=
  c1_idempotent_upsert emptyHandler "m1" [some "Hel"] [[some "lo"]] [some "Hello!"] (by decide)

/-- C4 counterexample: after deltas for "A" then "B", the id "A" has been
seen (it is in `_message_map`), yet a further delta for "A" grows the
transcript by one entry instead of appending to the existing entry — the
handler compares against `_current_message_id`, not against the set of seen
ids. -/
theorem c4_known_id_counterexample :
    alContains (on_message_delta (on_message_delta emptyHandler "A" [some "x"]) "B" [some "y"]).messageMap "A" = true
    ∧ (on_message_delta (on_message_delta (on_message_delta emptyHandler "A" [some "x"]) "B" [some "y"]) "A" [some "z"]).conversation.length
      = (on_message_delta (on_message_delta emptyHandler "A" [some "x"]) "B" [some "y"]).conversation.length + 1 := by
  decide

/-- C4 (amended): a text delta whose id equals the current message id (the
id of the immediately preceding delta) appends its fragment to that id's
entry in place: the entry's content grows by the fragment, no entry is
created or removed, other entries are untouched, and the map is
unchanged.  (A delta for a previously seen but non-current id instead
starts a fresh entry, as the counterexample shows.) -/
theorem c4_current_id_appends (s : HandlerState) (m : String) (i : Nat)
    (chunks : List (Option String))
    (hcur : s.currentMessageId = some m)
    (hmap : alLookup s.messageMap m = some i)
    (hacc : (s.conversation.map ChatMessage.content)[i]? = some s.accumulatedText) :
    (on_message_delta s m chunks).conversation.length = s.conversation.length
    ∧ ((on_message_delta s m chunks).conversation.map ChatMessage.content)[i]?
        = some (s.accumulatedText ++ joinParts chunks)
    ∧ (∀ j, j ≠ i → (on_message_delta s m chunks).conversation[j]? = s.conversation[j]?)
    ∧ (on_message_delta s m chunks).messageMap = s.messageMap := by
  rw [on_message_delta]
  rw [if_pos hcur.symm]
  by_cases hp : joinParts chunks = ""
  · rw [if_pos hp]
    refine ⟨rfl, ?_, fun j hj => rfl, rfl⟩
    rw [hp, string_append_empty]
    exact hacc
  · rw [if_neg hp]
    have hnonnil : s.conversation ≠ [] := by
      intro he
      rw [he] at hacc
      simp at hacc
    rw [if_neg hnonnil, hmap]
    refine ⟨setContent_length _ _ _, ?_, ?_, rfl⟩
    · rw [List.getElem?_map, setContent_getElem?_self]
      rw [List.getElem?_map] at hacc
      obtain ⟨e, he, hce⟩ : ∃ e, s.conversation[i]? = some e ∧ e.content = s.accumulatedText := by
        cases hge : s.conversation[i]? with
        | none => rw [hge] at hacc; simp at hacc
        | some e =>
          rw [hge] at hacc
          simp at hacc
          exact ⟨e, rfl, hacc⟩
      rw [he]
      simp
    · intro j hj
      exact setContent_getElem?_ne _ _ _ _ hj

/-- C4 witness: one follow-up delta for the current message id. -/
theorem c4_current_id_appends_witness :
    (on_message_delta
        { currentMessageId := some "A", accumulatedText := "x",
          conversation := [{ role := "assistant", content := "x", metadata := none }],
          messageMap := [("A", 0)], currentToolCalls := [] }
        "A" [some "y"]).conversation.length
      = ({ currentMessageId := some "A", accumulatedText := "x",
           conversation := [{ role := "assistant", content := "x", metadata := none }],
           messageMap := [("A", 0)], currentToolCalls := [] } : HandlerState).conversation.length
    ∧ ((on_message_delta
        { currentMessageId := some "A", accumulatedText := "x",
          conversation := [{ role := "assistant", content := "x", metadata := none }],
          messageMap := [("A", 0)], currentToolCalls := [] }
        "A" [some "y"]).conversation.map ChatMessage.content)[0]?
        = some ("x" ++ joinParts [some "y"])
    ∧ (∀ j, j ≠ 0 →
        (on_message_delta
          { currentMessageId := some "A", accumulatedText := "x",
            conversation := [{ role := "assistant", content := "x", metadata := none }],
            messageMap := [("A", 0)], currentToolCalls := [] }
          "A" [some "y"]).conversation[j]?
          = ({ currentMessageId := some "A", accumulatedText := "x",
               conversation := [{ role := "assistant", content := "x", metadata := none }],
               messageMap := [("A", 0)], currentToolCalls := [] } : HandlerState).conversation[j]?)
    ∧ (on_message_delta
        { currentMessageId := some "A", accumulatedText := "x",
          conversation := [{ role := "assistant", content := "x", metadata := none }],
          messageMap := [("A", 0)], currentToolCalls := [] }
        "A" [some "y"]).messageMap
      = ({ currentMessageId := some "A", accumulatedText := "x",
           conversation := [{ role := "assistant", content := "x", metadata := none }],
           messageMap := [("A", 0)], currentToolCalls := [] } : HandlerState).messageMap :=
  c4_current_id_appends
    { currentMessageId := some "A", accumulatedText := "x",
      conversation := [{ role := "assistant", content := "x", metadata := none }],
      messageMap := [("A", 0)], currentToolCalls := [] }
    "A" 0 [some "y"] rfl (by decide) (by decide)

/-- C6 counterexample: on a transcript holding one user entry, a completed
assistant message with an unknown id appends an entry but records no
association for the id, so an identical second completion event appends a
second entry instead of finding the first; and a completion whose final
text is empty appends nothing at all. -/
theorem c6_unknown_completion_counterexample :
    (on_thread_message
        { currentMessageId := none, accumulatedText := "",
          conversation := [{ role := "user", content := "hi", metadata := none }],
          messageMap := [], currentToolCalls := [] }
        "m1" "assistant" "completed" [some "hello"]).conversation.length = 2
    ∧ alLookup (on_thread_message
        { currentMessageId := none, accumulatedText := "",
          conversation := [{ role := "user", content := "hi", metadata := none }],
          messageMap := [], currentToolCalls := [] }
        "m1" "assistant" "completed" [some "hello"]).messageMap "m1" = none
    ∧ (on_thread_message (on_thread_message
        { currentMessageId := none, accumulatedText := "",
          conversation := [{ role := "user", content := "hi", metadata := none }],
          messageMap := [], currentToolCalls := [] }
        "m1" "assistant" "completed" [some "hello"])
        "m1" "assistant" "completed" [some "hello"]).conversation.length = 3
    ∧ (on_thread_message
        { currentMessageId := none, accumulatedText := "",
          conversation := [{ role := "user", content := "hi", metadata := none }],
          messageMap := [], currentToolCalls := [] }
        "m2" "assistant" "completed" []).conversation.length = 1 := by
  decide

/-- C6 (amended): on a message-completed event, if the id is associated in
`_message_map` the associated entry's content is replaced with the final
text; otherwise — when the transcript is nonempty and the final text is
nonempty — a new assistant entry with the final text is appended, but no
association for the id is recorded (`_message_map` is unchanged in both
branches), so a later event for the same id appends again rather than
finding the entry. -/
theorem c6_completion_upsert (s : HandlerState) (m : String)
    (parts : List (Option String)) :
    (∀ i, alLookup s.messageMap m = some i →
        (on_thread_message s m "assistant" "completed" parts).conversation
          = setContent s.conversation i (joinParts parts)
        ∧ (on_thread_message s m "assistant" "completed" parts).messageMap = s.messageMap)
    ∧ (alLookup s.messageMap m = none → s.conversation ≠ [] → joinParts parts ≠ "" →
        (on_thread_message s m "assistant" "completed" parts).conversation
          = s.conversation ++ [{ role := "assistant", content := joinParts parts, metadata := none }]
        ∧ (on_thread_message s m "assistant" "completed" parts).messageMap = s.messageMap) := by
  constructor
  · intro i hi
    rw [on_thread_message]
    rw [if_pos (And.intro rfl rfl)]
    by_cases hnil : s.conversation = []
    · rw [if_pos hnil, hnil]
      exact ⟨rfl, rfl⟩
    · rw [if_neg hnil, hi]
      exact ⟨rfl, rfl⟩
  · intro hn hnil hne
    rw [on_thread_message]
    rw [if_pos (And.intro rfl rfl)]
    rw [if_neg hnil, hn]
    rw [if_neg hne]
    exact ⟨rfl, rfl⟩

/-- C6 witness: one known-id completion (content replaced in place) and one
unknown-id completion (entry appended, no association recorded). -/
theorem c6_completion_upsert_witness :
    ((on_thread_message
        { currentMessageId := some "A", accumulatedText := "dra",
          conversation := [{ role := "assistant", content := "dra", metadata := none }],
          messageMap := [("A", 0)], currentToolCalls := [] }
        "A" "assistant" "completed" [some "draft done"]).conversation
      = setContent [{ role := "assistant", content := "dra", metadata := none }] 0 (joinParts [some "draft done"])
    ∧ (on_thread_message
        { currentMessageId := some "A", accumulatedText := "dra",
          conversation := [{ role := "assistant", content := "dra", metadata := none }],
          messageMap := [("A", 0)], currentToolCalls := [] }
        "A" "assistant" "completed" [some "draft done"]).messageMap = [("A", 0)])
    ∧ ((on_thread_message
        { currentMessageId := none, accumulatedText := "",
          conversation := [{ role := "user", content := "hi", metadata := none }],
          messageMap := [], currentToolCalls := [] }
        "B" "assistant" "completed" [some "fresh"]).conversation
      = [{ role := "user", content := "hi", metadata := none }]
          ++ [{ role := "assistant", content := joinParts [some "fresh"], metadata := none }]
    ∧ (on_thread_message
        { currentMessageId := none, accumulatedText := "",
          conversation := [{ role := "user", content := "hi", metadata := none }],
          messageMap := [], currentToolCalls := [] }
        "B" "assistant" "completed" [some "fresh"]).messageMap = []) :=
  ⟨(c6_completion_upsert
      { currentMessageId := some "A", accumulatedText := "dra",
        conversation := [{ role := "assistant", content := "dra", metadata := none }],
        messageMap := [("A", 0)], currentToolCalls := [] }
      "A" [some "draft done"]).1 0 (by decide),
   (c6_completion_upsert
      { currentMessageId := none, accumulatedText := "",
        conversation := [{ role := "user", content := "hi", metadata := none }],
        messageMap := [], currentToolCalls := [] }
      "B" [some "fresh"]).2 (by decide) (by decide) (by decide)⟩

/-- C2: a start delta, any number of argument-fragment deltas and a
completion run-step event sharing one `call_id` end with the transcript
extended by exactly one entry carrying that call's bubble id, whose status
is `done`; and at every intermediate point the transcript has no duplicate
metadata id. -/
theorem c2_tool_bubble_uniqueness (s : HandlerState) (c n : String)
    (arg0 : Option String) (frags : List FunctionDelta) (tc : StepToolCall)
    (hc : c ≠ "")
    (hnt : alContains s.currentToolCalls c = false)
    (hnb : ∀ m ∈ s.conversation, hasBubbleId m (bubbleIdOf (some c)) = false)
    (hnodup : (idsOf s.conversation).Nodup)
    (htc : tc.id = some c) :
    ((on_run_step (applyToolFrags c (on_run_step_delta s (toolStartEvt c (some n) arg0)) frags)
        (completedStepEvt tc)).conversation.filter
        (fun m => hasBubbleId m (bubbleIdOf (some c)))).length = 1
    ∧ (∀ m ∈ (on_run_step (applyToolFrags c (on_run_step_delta s (toolStartEvt c (some n) arg0)) frags)
          (completedStepEvt tc)).conversation,
        hasBubbleId m (bubbleIdOf (some c)) = true →
        m.metadata = some { id := some (bubbleIdOf (some c)),
                            title := some (statusIcon "done" ++ " " ++ toolTitles n),
                            status := some "done" })
    ∧ (idsOf (on_run_step_delta s (toolStartEvt c (some n) arg0)).conversation).Nodup
    ∧ (∀ pfx, List.IsPrefix pfx frags →
        (idsOf (applyToolFrags c (on_run_step_delta s (toolStartEvt c (some n) arg0)) pfx).conversation).Nodup)
    ∧ (idsOf (on_run_step (applyToolFrags c (on_run_step_delta s (toolStartEvt c (some n) arg0)) frags)
        (completedStepEvt tc)).conversation).Nodup := by
  have h1 := toolTracks_start s c n arg0 hc hnt hnb
  have h2 := toolTracks_fold s.conversation _ c n frags h1
  have hF := toolTracks_complete s.conversation _ c n tc h2 htc
  have hdone : hasBubbleId
      { role := "assistant", content := completedMessage (some n) tc,
        metadata := some { id := some (bubbleIdOf (some c)),
                           title := some (statusIcon "done" ++ " " ++ toolTitles n),
                           status := some "done" } }
      (bubbleIdOf (some c)) = true := by
    simp [hasBubbleId]
  refine ⟨?_, ?_, ?_, ?_, ?_⟩
  · rw [hF, List.filter_append]
    have hbase : s.conversation.filter (fun m => hasBubbleId m (bubbleIdOf (some c))) = [] := by
      rw [List.filter_eq_nil_iff]
      intro m hm
      rw [hnb m hm]
      exact Bool.false_ne_true
    rw [hbase]
    simp [hdone]
  · intro m hm hbid
    rw [hF] at hm
    rcases List.mem_append.mp hm with hmem | hmem
    · rw [hnb m hmem] at hbid
      exact absurd hbid Bool.false_ne_true
    · rcases List.mem_singleton.mp hmem with rfl
      rfl
  · obtain ⟨⟨content0, hconv⟩, _⟩ := h1
    rw [hconv]
    exact nodup_idsOf_concat s.conversation _ _ (bubbleIdOf (some c)) rfl rfl hnodup hnb
  · intro pfx hpfx
    have hp := toolTracks_fold s.conversation _ c n pfx h1
    obtain ⟨⟨content1, hconv1⟩, _⟩ := hp
    rw [hconv1]
    exact nodup_idsOf_concat s.conversation _ _ (bubbleIdOf (some c)) rfl rfl hnodup hnb
  · rw [hF]
    exact nodup_idsOf_concat s.conversation _ _ (bubbleIdOf (some c)) rfl rfl hnodup hnb

/-- C2 witness: a concrete start → fragment → completion sequence for call
id "c1". -/
theorem c2_tool_bubble_uniqueness_witness :
    ((on_run_step (applyToolFrags "c1" (on_run_step_delta emptyHandler (toolStartEvt "c1" (some "get_clients_for_today") none))
        [{ name := none, arguments := some "\x7b\x7d" }])
        (completedStepEvt { id := some "c1", type := "function", output := some "\x7b\"message\": \"3 clients\"\x7d",
                            parsed := some (JVal.jobj [("message", JVal.jstr "3 clients")]) })).conversation.filter
        (fun m => hasBubbleId m (bubbleIdOf (some "c1")))).length = 1
    ∧ (∀ m ∈ (on_run_step (applyToolFrags "c1" (on_run_step_delta emptyHandler (toolStartEvt "c1" (some "get_clients_for_today") none))
          [{ name := none, arguments := some "\x7b\x7d" }])
          (completedStepEvt { id := some "c1", type := "function", output := some "\x7b\"message\": \"3 clients\"\x7d",
                              parsed := some (JVal.jobj [("message", JVal.jstr "3 clients")]) })).conversation,
        hasBubbleId m (bubbleIdOf (some "c1")) = true →
        m.metadata = some { id := some (bubbleIdOf (some "c1")),
                            title := some (statusIcon "done" ++ " " ++ toolTitles "get_clients_for_today"),
                            status := some "done" })
    ∧ (idsOf (on_run_step_delta emptyHandler (toolStartEvt "c1" (some "get_clients_for_today") none)).conversation).Nodup
    ∧ (∀ pfx, List.IsPrefix pfx [{ name := none, arguments := some "\x7b\x7d" : FunctionDelta }] →
        (idsOf (applyToolFrags "c1" (on_run_step_delta emptyHandler (toolStartEvt "c1" (some "get_clients_for_today") none)) pfx).conversation).Nodup)
    ∧ (idsOf (on_run_step (applyToolFrags "c1" (on_run_step_delta emptyHandler (toolStartEvt "c1" (some "get_clients_for_today") none))
        [{ name := none, arguments := some "\x7b\x7d" }])
        (completedStepEvt { id := some "c1", type := "function", output := some "\x7b\"message\": \"3 clients\"\x7d",
                            parsed := some (JVal.jobj [("message", JVal.jstr "3 clients")]) })).conversation).Nodup :=
  c2_tool_bubble_uniqueness emptyHandler "c1" "get_clients_for_today" none
    [{ name := none, arguments := some "\x7b\x7d" }]
    { id := some "c1", type := "function", output := some "\x7b\"message\": \"3 clients\"\x7d",
      parsed := some (JVal.jobj [("message", JVal.jstr "3 clients")]) }
    (by decide) (by decide) (by decide) (by decide) rfl

/-- C3: a completion run-step event for a `call_id` absent from
`current_tool_calls` still resolves: the transcript gains exactly one
bubble entry for that call id, with status `done` and the fallback function
name `unknown_function` in its title. -/
theorem c3_unknown_function_fallback (s : HandlerState) (c : String) (tc : StepToolCall)
    (htc : tc.id = some c)
    (hnt : alLookup s.currentToolCalls c = none)
    (hnb : ∀ m ∈ s.conversation, hasBubbleId m (bubbleIdOf (some c)) = false) :
    (on_run_step s (completedStepEvt tc)).conversation
      = s.conversation ++
          [{ role := "assistant",
             content := completedMessage (some "unknown_function") tc,
             metadata := some { id := some (bubbleIdOf (some c)),
                                title := some "✅ 🛠️ unknown_function",
                                status := some "done" } }]
    ∧ ((on_run_step s (completedStepEvt tc)).conversation.filter
        (fun m => hasBubbleId m (bubbleIdOf (some c)))).length = 1 := by
  have htitle : statusIcon "done" ++ " " ++ toolTitles "unknown_function"
      = "✅ 🛠️ unknown_function" := by decide
  have happ := create_tool_bubble_append s.conversation "unknown_function"
    (completedMessage (some "unknown_function") tc) (some c) "done" hnb
  have hFc : (on_run_step s (completedStepEvt tc)).conversation
      = s.conversation ++
          [{ role := "assistant",
             content := completedMessage (some "unknown_function") tc,
             metadata := some { id := some (bubbleIdOf (some c)),
                                title := some "✅ 🛠️ unknown_function",
                                status := some "done" } }] := by
    show (processStepToolCall "completed" none s tc).conversation = _
    simp only [processStepToolCall, resolvedFuncName, htc, Option.some_bind, hnt, if_true,
      ite_true]
    rw [happ, htitle]
  refine ⟨hFc, ?_⟩
  rw [hFc, List.filter_append]
  have hbase : s.conversation.filter (fun m => hasBubbleId m (bubbleIdOf (some c))) = [] := by
    rw [List.filter_eq_nil_iff]
    intro m hm
    rw [hnb m hm]
    exact Bool.false_ne_true
  rw [hbase]
  simp [hasBubbleId]

/-- C3 witness: a completion for the untracked call id "c9". -/
theorem c3_unknown_function_fallback_witness :
    (on_run_step emptyHandler
        (completedStepEvt { id := some "c9", type := "function", output := none, parsed := none })).conversation
      = emptyHandler.conversation ++
          [{ role := "assistant",
             content := completedMessage (some "unknown_function")
               { id := some "c9", type := "function", output := none, parsed := none },
             metadata := some { id := some (bubbleIdOf (some "c9")),
                                title := some "✅ 🛠️ unknown_function",
                                status := some "done" } }]
    ∧ ((on_run_step emptyHandler
        (completedStepEvt { id := some "c9", type := "function", output := none, parsed := none })).conversation.filter
        (fun m => hasBubbleId m (bubbleIdOf (some "c9")))).length = 1 :=
  c3_unknown_function_fallback emptyHandler "c9"
    { id := some "c9", type := "function", output := none, parsed := none }
    rfl (by decide) (by decide)

/-! Section: Frame lemmas for the run-step reducer -/

theorem processStepToolCall_currentToolCalls (st : String) (le : Option String)
    (s : HandlerState) (tc : StepToolCall) (c : String) (htc : tc.id = some c) :
    (processStepToolCall st le s tc).currentToolCalls = alErase s.currentToolCalls c := by
  rw [processStepToolCall]
  simp only [htc]
  by_cases h1 : st = "completed"
  · simp [h1]
  · by_cases h2 : st = "failed"
    · simp [h1, h2]
    · simp [h1, h2]

theorem processStepToolCall_conversation (st : String) (le : Option String)
    (s : HandlerState) (tc : StepToolCall) :
    (processStepToolCall st le s tc).conversation
      = if st = "completed" then
          create_tool_bubble s.conversation (resolvedFuncName s tc)
            (completedMessage (resolvedFuncName s tc) tc) tc.id "done"
        else if st = "failed" then
          create_tool_bubble s.conversation (resolvedFuncName s tc)
            (failedMessage (resolvedFuncName s tc) tc.id le) tc.id "error"
        else s.conversation := by
  rw [processStepToolCall]
  by_cases h1 : st = "completed"
  · cases htc : tc.id <;> simp [htc, h1]
  · by_cases h2 : st = "failed"
    · cases htc : tc.id <;> simp [htc, h1, h2]
    · cases htc : tc.id <;> simp [htc, h1, h2]

theorem idsOf_updateBubbleFromEnd (bid title content status : String)
    (conv conv1 : List ChatMessage)
    (h : updateBubbleFromEnd bid title content status conv = some conv1) :
    idsOf conv1 = idsOf conv := by
  induction conv generalizing conv1 with
  | nil => simp [updateBubbleFromEnd] at h
  | cons m rest ih =>
    rw [updateBubbleFromEnd] at h
    cases hrec : updateBubbleFromEnd bid title content status rest with
    | some rest1 =>
      rw [hrec] at h
      have h1 : m :: rest1 = conv1 := by
        simpa using h
      subst h1
      have htail : idsOf rest1 = idsOf rest := ih rest1 hrec
      simp only [idsOf, List.filterMap_cons]
      simp only [idsOf] at htail
      rw [htail]
    | none =>
      simp only [hrec] at h
      cases hmd : m.metadata with
      | none => simp [hmd] at h
      | some md =>
        simp only [hmd] at h
        by_cases hid : md.id = some bid
        · rw [if_pos hid] at h
          have h1 : ({ m with
                        content := content,
                        metadata := some { md with title := some title, status := some status } } : ChatMessage) :: rest
              = conv1 := by
            simpa using h
          subst h1
          simp [idsOf, List.filterMap_cons, hmd]
        · rw [if_neg hid] at h
          exact absurd h (by simp)

theorem mem_idsOf_create_tool_bubble (conv : List ChatMessage) (tn : Option String)
    (content : String) (cid : Option String) (st : String) (bid : String)
    (h : bid ∈ idsOf conv) :
    bid ∈ idsOf (create_tool_bubble conv tn content cid st) := by
  cases tn with
  | none => simpa [create_tool_bubble] using h
  | some name =>
    rw [create_tool_bubble]
    cases hu : updateBubbleFromEnd (bubbleIdOf cid)
        (statusIcon st ++ " " ++ toolTitles name) content st conv with
    | none =>
      simp only [hu]
      rw [idsOf_append]
      exact List.mem_append_left _ h
    | some conv1 =>
      simp only [hu]
      rw [idsOf_updateBubbleFromEnd _ _ _ _ _ _ hu]
      exact h

theorem mem_idsOf_processStepToolCall (st : String) (le : Option String)
    (s : HandlerState) (tc : StepToolCall) (bid : String)
    (h : bid ∈ idsOf s.conversation) :
    bid ∈ idsOf (processStepToolCall st le s tc).conversation := by
  rw [processStepToolCall_conversation]
  by_cases h1 : st = "completed"
  · rw [if_pos h1]
    exact mem_idsOf_create_tool_bubble _ _ _ _ _ _ h
  · rw [if_neg h1]
    by_cases h2 : st = "failed"
    · rw [if_pos h2]
      exact mem_idsOf_create_tool_bubble _ _ _ _ _ _ h
    · rw [if_neg h2]
      exact h

theorem mem_idsOf_foldl_step (st : String) (le : Option String) (tcs : List StepToolCall)
    (s : HandlerState) (bid : String) (h : bid ∈ idsOf s.conversation) :
    bid ∈ idsOf (tcs.foldl (processStepToolCall st le) s).conversation := by
  induction tcs generalizing s with
  | nil => exact h
  | cons tc rest ih => exact ih _ (mem_idsOf_processStepToolCall _ _ _ _ _ h)

theorem mem_idsOf_on_run_step (s : HandlerState) (step : RunStepEvt) (bid : String)
    (h : bid ∈ idsOf s.conversation) :
    bid ∈ idsOf (on_run_step s step).conversation := by
  rw [on_run_step]
  by_cases ht : step.type = "tool_calls"
  · rw [if_pos ht]
    cases hl : step.toolCalls with
    | nil => exact h
    | cons tc rest => exact mem_idsOf_foldl_step _ _ _ _ _ h
  · rw [if_neg ht]
    exact h

/-- C5 counterexample: a run-step event with the non-terminal status
`in_progress`, of type tool_calls and listing a tracked call id, removes
that call's tracking record — the deletion in `on_run_step` is not guarded
by the step status. -/
theorem c5_nonterminal_removal_counterexample :
    alContains (on_run_step
        { currentMessageId := none, accumulatedText := "", conversation := [],
          messageMap := [],
          currentToolCalls := [("c1", { name := some "get_weather", arguments := "", status := "starting" })] }
        { status := "in_progress", type := "tool_calls",
          toolCalls := [{ id := some "c1", type := "function", output := none, parsed := none }],
          lastErrorMessage := none }).currentToolCalls "c1" = false := by
  decide

/-- C5 (amended): a PendingToolCall record is created when a tool-call
delta first introduces its call id; the record is removed when any
run-step event of type tool_calls whose details list that call id is
processed, whatever the step status (terminal or not); and every metadata
id present in the transcript — in particular the call's bubble — persists
across any run-step event. -/
theorem c5_tracking_lifecycle :
    (∀ (s : HandlerState) (c : String) (fd : FunctionDelta), c ≠ "" →
        alContains s.currentToolCalls c = false →
        alLookup (processToolCallDelta s
            { id := some c, type := "function", function := some fd }).currentToolCalls c
          = some { name := fd.name, arguments := fd.arguments.getD "", status := "starting" })
    ∧ (∀ (s : HandlerState) (step : RunStepEvt) (tc : StepToolCall) (c : String),
        step.type = "tool_calls" → step.toolCalls = [tc] → tc.id = some c →
        (s.currentToolCalls.map Prod.fst).Nodup →
        alContains (on_run_step s step).currentToolCalls c = false)
    ∧ (∀ (s : HandlerState) (step : RunStepEvt) (bid : String),
        bid ∈ idsOf s.conversation → bid ∈ idsOf (on_run_step s step).conversation) := by
  refine ⟨?_, ?_, ?_⟩
  · intro s c fd hc hnt
    simp only [processToolCallDelta, if_neg hc, hnt, Bool.false_eq_true, if_false, ite_false,
      if_pos (rfl : ("function" : String) = "function")]
    by_cases ha : (fd.arguments.getD "") = ""
    · rw [if_pos ha, ha]
      exact alLookup_insert_self s.currentToolCalls c
        { name := fd.name, arguments := "", status := "starting" }
    · rw [if_neg ha]
      exact alLookup_appendArgs_self _ c _ _
        (alLookup_insert_self s.currentToolCalls c
          { name := fd.name, arguments := "", status := "starting" })
  · intro s step tc c ht hl htc hnodup
    rw [on_run_step, if_pos ht, hl]
    show alContains (processStepToolCall step.status step.lastErrorMessage s tc).currentToolCalls c
      = false
    rw [processStepToolCall_currentToolCalls _ _ _ _ _ htc]
    exact alContains_erase_self _ _ hnodup
  · intro s step bid h
    exact mem_idsOf_on_run_step s step bid h

/-- C5 witness: a concrete creation delta, a concrete terminal removal, and
a concrete bubble surviving the removal. -/
theorem c5_tracking_lifecycle_witness :
    alLookup (processToolCallDelta emptyHandler
        { id := some "c1", type := "function",
          function := some { name := some "get_weather", arguments := some "\x7b\x7d" } }).currentToolCalls "c1"
      = some { name := some "get_weather", arguments := "\x7b\x7d", status := "starting" }
    ∧ alContains (on_run_step
        { currentMessageId := none, accumulatedText := "",
          conversation := [{ role := "assistant", content := "ok",
                             metadata := some { id := some "tool-c1", title := some "t", status := some "done" } }],
          messageMap := [],
          currentToolCalls := [("c1", { name := some "get_weather", arguments := "", status := "starting" })] }
        { status := "completed", type := "tool_calls",
          toolCalls := [{ id := some "c1", type := "function", output := none, parsed := none }],
          lastErrorMessage := none }).currentToolCalls "c1" = false
    ∧ "tool-c1" ∈ idsOf (on_run_step
        { currentMessageId := none, accumulatedText := "",
          conversation := [{ role := "assistant", content := "ok",
                             metadata := some { id := some "tool-c1", title := some "t", status := some "done" } }],
          messageMap := [],
          currentToolCalls := [("c1", { name := some "get_weather", arguments := "", status := "starting" })] }
        { status := "completed", type := "tool_calls",
          toolCalls := [{ id := some "c1", type := "function", output := none, parsed := none }],
          lastErrorMessage := none }).conversation :=
  ⟨c5_tracking_lifecycle.1 emptyHandler "c1"
      { name := some "get_weather", arguments := some "\x7b\x7d" } (by decide) (by decide),
   c5_tracking_lifecycle.2.1
      { currentMessageId := none, accumulatedText := "",
        conversation := [{ role := "assistant", content := "ok",
                           metadata := some { id := some "tool-c1", title := some "t", status := some "done" } }],
        messageMap := [],
        currentToolCalls := [("c1", { name := some "get_weather", arguments := "", status := "starting" })] }
      { status := "completed", type := "tool_calls",
        toolCalls := [{ id := some "c1", type := "function", output := none, parsed := none }],
        lastErrorMessage := none }
      { id := some "c1", type := "function", output := none, parsed := none }
      "c1" rfl rfl rfl (by decide),
   c5_tracking_lifecycle.2.2
      { currentMessageId := none, accumulatedText := "",
        conversation := [{ role := "assistant", content := "ok",
                           metadata := some { id := some "tool-c1", title := some "t", status := some "done" } }],
        messageMap := [],
        currentToolCalls := [("c1", { name := some "get_weather", arguments := "", status := "starting" })] }
      { status := "completed", type := "tool_calls",
        toolCalls := [{ id := some "c1", type := "function", output := none, parsed := none }],
        lastErrorMessage := none }
      "tool-c1" (by decide)⟩

/-- C7: a submission that is empty after trimming, or that arrives within
the 2-second cooldown of the previous accepted submission, is a no-op:
nothing is appended, the guard state (timestamp and conversation state) is
unchanged, the submission is not accepted (so no remote message is sent),
and the history is yielded unchanged. -/
theorem c7_submission_noop (lastTime : ℚ) (cs : List ChatMessage) (now : ℚ)
    (msg : String) (history : List ChatMessage)
    (h : pyStrip msg = "" ∨ now - lastTime < 2) :
    azure_store_chat_guard lastTime cs now msg history
      = { lastTime := lastTime, conversationState := cs, accepted := false,
          yielded := history } := by
  rw [azure_store_chat_guard]
  by_cases hcool : now - lastTime < 2
  · rw [if_pos hcool]
  · rw [if_neg hcool]
    have hempty : pyStrip msg = "" := h.resolve_right hcool
    rw [if_pos hempty]

/-- C7 witness: a whitespace-only submission outside the cooldown and a
nonempty submission inside the cooldown, both rejected. -/
theorem c7_submission_noop_witness :
    azure_store_chat_guard 0 [] 10 "   " []
      = { lastTime := 0, conversationState := [], accepted := false, yielded := [] }
    ∧ azure_store_chat_guard 9 [] 10 "hello" []
      = { lastTime := 9, conversationState := [], accepted := false, yielded := [] } :=
  ⟨c7_submission_noop 0 [] 10 "   " [] (Or.inl (by decide)),
   c7_submission_noop 9 [] 10 "hello" [] (Or.inr (by norm_num))⟩

/-- C9: a run-status event leaves the handler state — in particular the
transcript — untouched, whether or not an observability sink is attached;
when a recording sink is attached and the run failed with an error payload,
the attributes `error_code` and `error` are recorded. -/
theorem c9_run_failed_frame (s : HandlerState) (tr rc : Bool) (run : ThreadRunEvt) :
    (on_thread_run s tr rc run).1 = s
    ∧ (∀ e, tr = true → rc = true → run.status = "failed" → run.lastError = some e →
        ("error_code", e.code) ∈ (on_thread_run s tr rc run).2
        ∧ ("error", e.message) ∈ (on_thread_run s tr rc run).2) := by
  constructor
  · rfl
  · intro e htr hrc hst herr
    subst htr
    subst hrc
    rw [on_thread_run]
    simp [herr, hst]

/-- C9 witness: a failed run with an error payload, sink attached and
recording. -/
theorem c9_run_failed_frame_witness :
    (on_thread_run emptyHandler true true
        { id := "r1", status := "failed",
          lastError := some { code := "server_error", message := "boom" } }).1 = emptyHandler
    ∧ (("error_code", "server_error") ∈ (on_thread_run emptyHandler true true
          { id := "r1", status := "failed",
            lastError := some { code := "server_error", message := "boom" } }).2
       ∧ ("error", "boom") ∈ (on_thread_run emptyHandler true true
          { id := "r1", status := "failed",
            lastError := some { code := "server_error", message := "boom" } }).2) :=
  ⟨(c9_run_failed_frame emptyHandler true true
      { id := "r1", status := "failed",
        lastError := some { code := "server_error", message := "boom" } }).1,
   (c9_run_failed_frame emptyHandler true true
      { id := "r1", status := "failed",
        lastError := some { code := "server_error", message := "boom" } }).2
      { code := "server_error", message := "boom" } rfl rfl rfl rfl⟩

/-- C10: the cooldown guard compares only timestamps: after an accepted
submission at `t1`, any submission at `t2` with `t2 - t1 < 2` is rejected
as a no-op whatever its text — the guard state keeps only the first
message's entry. -/
theorem c10_cooldown_timestamp_only (lastTime : ℚ) (cs : List ChatMessage)
    (t1 t2 : ℚ) (msg1 : String) (history1 : List ChatMessage)
    (hgap : ¬ t1 - lastTime < 2) (hmsg1 : ¬ pyStrip msg1 = "") (hwithin : t2 - t1 < 2) :
    (azure_store_chat_guard lastTime cs t1 msg1 history1).accepted = true
    ∧ (∀ (msg2 : String) (history2 : List ChatMessage),
        azure_store_chat_guard (azure_store_chat_guard lastTime cs t1 msg1 history1).lastTime
            (azure_store_chat_guard lastTime cs t1 msg1 history1).conversationState t2 msg2 history2
          = { lastTime := (azure_store_chat_guard lastTime cs t1 msg1 history1).lastTime,
              conversationState := (azure_store_chat_guard lastTime cs t1 msg1 history1).conversationState,
              accepted := false, yielded := history2 }) := by
  have h1 : azure_store_chat_guard lastTime cs t1 msg1 history1
      = { lastTime := t1,
          conversationState := (if history1 = [] then cs else history1)
            ++ [{ role := "user", content := msg1, metadata := none }],
          accepted := true,
          yielded := (if history1 = [] then cs else history1)
            ++ [{ role := "user", content := msg1, metadata := none }] } := by
    rw [azure_store_chat_guard, if_neg hgap, if_neg hmsg1]
  constructor
  · rw [h1]
  · intro msg2 history2
    rw [h1]
    simp only []
    rw [azure_store_chat_guard, if_pos hwithin]

/-- C10 witness: "hello" accepted at t=5, "world" rejected at t=6. -/
theorem c10_cooldown_timestamp_only_witness :
    (azure_store_chat_guard 0 [] 5 "hello" []).accepted = true
    ∧ azure_store_chat_guard (azure_store_chat_guard 0 [] 5 "hello" []).lastTime
        (azure_store_chat_guard 0 [] 5 "hello" []).conversationState 6 "world" []
      = { lastTime := (azure_store_chat_guard 0 [] 5 "hello" []).lastTime,
          conversationState := (azure_store_chat_guard 0 [] 5 "hello" []).conversationState,
          accepted := false, yielded := [] } :=
  ⟨(c10_cooldown_timestamp_only 0 [] 5 6 "hello" [] (by norm_num) (by decide) (by norm_num)).1,
   (c10_cooldown_timestamp_only 0 [] 5 6 "hello" [] (by norm_num) (by decide) (by norm_num)).2
     "world" []⟩

/-- C8 (divergence evidence): a 150-character tool output that matches no
formatter rule is displayed in full — `output_str[:1000]` does not truncate
it — yet the ellipsis marker is appended, because the source appends `...`
whenever the output exceeds 100 characters while truncating at 1000; the
non-JSON fallback shows the same mismatch. -/
theorem c8_truncation_ellipsis_mismatch :
    rawOutput150.length = 150
    ∧ formatParsedOutput (some "some_function") rawOutput150 (JVal.jobj [("data", JVal.jstr "x")])
      = "Completed. Output: " ++ rawOutput150 ++ "..."
    ∧ completedMessage (some "some_function")
        { id := some "c1", type := "function", output := some rawOutput150, parsed := none }
      = "Completed. Output (non-JSON): " ++ rawOutput150 ++ "..." := by
  have hlen : rawOutput150.length = 150 := rfl
  have htake : pySlice rawOutput150 1000 = rawOutput150 := by
    rw [pySlice, rawOutput150]
    rw [List.take_of_length_le (by simp)]
  have hgt : rawOutput150.length > 100 := by
    rw [hlen]
    decide
  refine ⟨hlen, ?_, ?_⟩
  · rw [formatParsedOutput]
    rw [if_neg (by decide)]
    rw [if_neg (by decide)]
    rw [if_neg (by decide)]
    rw [if_neg (by decide)]
    rw [if_neg (by decide)]
    rw [if_neg (by decide)]
    rw [htake, if_pos hgt]
  · rw [completedMessage]
    rw [if_pos (And.intro rfl (by
      show ¬ (some rawOutput150).getD "" = ""
      intro he
      have h0 : rawOutput150.length = 0 := by
        rw [show (some rawOutput150).getD "" = rawOutput150 from rfl] at he
        rw [he]
        rfl
      rw [hlen] at h0
      exact absurd h0 (by decide)))]
    show "Completed. Output (non-JSON): " ++ pySlice rawOutput150 1000
        ++ (if rawOutput150.length > 100 then "..." else "")
      = "Completed. Output (non-JSON): " ++ rawOutput150 ++ "..."
    rw [htake, if_pos hgt]
